import Mathlib

/-!
Shallow embedding of the LINA Linux-assistant repository, covering the risk
assessment layer (`agent/risk_manager.py`), the LLM retry loop
(`agent/llm_engine.py`), the hash service (`api/services/hash_service.py`),
the generic parameter builder
(`api/services/tool_executor/parameter_builder.py`) and the in-memory
session context (`agent/session_manager.py`), together with theorems
settling the specification's claims about them.

Python values appearing in user-parameter dictionaries are modelled by the
inductive type `PyVal`; Python dictionaries by association lists with
distinct keys; files and network calls by explicit oracle parameters.
-/

/-- Model of a Python value as stored in a user-parameter dict:
a string, a boolean, an integer, or `None`. -/
inductive PyVal : Type where
  | str (s : String)
  | bool (b : Bool)
  | int (n : Int)
  | none
deriving DecidableEq, Repr

/-- Python truthiness of a `PyVal` (`bool(v)`): empty string, `False`,
`0` and `None` are falsy. -/
def PyVal.truthy : PyVal → Bool
  | .str s => s != ""
  | .bool b => b
  | .int n => n != 0
  | .none => false

/-- Python `str(v)` rendering of a `PyVal`. -/
def PyVal.toStr : PyVal → String
  | .str s => s
  | .bool b => if b then "True" else "False"
  | .int n => toString n
  | .none => "None"

/-- Python truthiness of an optional string (`if s:`): `None` and the
empty string are falsy. -/
def strOptTruthy : Option String → Bool
  | Option.none => false
  | Option.some s => s != ""

/-- Python `sep.join(parts)`: the empty string on an empty list, otherwise
the parts interleaved with the separator. -/
def pyJoin (sep : String) : List String → String
  | [] => ""
  | x :: xs => xs.foldl (fun acc y => acc ++ sep ++ y) x

/-- Whether `needle` occurs as a contiguous run inside `hay`
(character-list level helper for Python's `needle in hay`). -/
def charsInfix (needle : List Char) : List Char → Bool
  | [] => needle.isEmpty
  | c :: t => needle.isPrefixOf (c :: t) || charsInfix needle t

/-- Python's substring test `needle in hay` on strings. -/
def containsSub (hay needle : String) : Bool :=
  charsInfix needle.data hay.data

/-- ASCII lowercasing of one character (the relevant fragment of Python's
`str.lower` for the identifiers this program manipulates). -/
def charLower (c : Char) : Char :=
  if 65 ≤ c.toNat ∧ c.toNat ≤ 90 then Char.ofNat (c.toNat + 32) else c

/-- ASCII uppercasing of one character. -/
def charUpper (c : Char) : Char :=
  if 97 ≤ c.toNat ∧ c.toNat ≤ 122 then Char.ofNat (c.toNat - 32) else c

/-- Python `s.lower()` (ASCII fragment). -/
def pyLower (s : String) : String :=
  ⟨s.data.map charLower⟩

/-- Python `s.upper()` (ASCII fragment). -/
def pyUpper (s : String) : String :=
  ⟨s.data.map charUpper⟩

/-- Python `s.replace(old, new)` for a single-character pattern. -/
def pyReplaceChar (s : String) (old new : Char) : String :=
  ⟨s.data.map (fun c => if c = old then new else c)⟩

/-- Replace every non-overlapping occurrence of `old` (assumed nonempty)
by `new`, left to right, with explicit fuel (Python `s.replace(old, new)`
at the character-list level). -/
def replaceChars (old new : List Char) : Nat → List Char → List Char
  | _, [] => []
  | 0, l => l
  | fuel + 1, c :: t =>
    if old.isPrefixOf (c :: t) && !old.isEmpty then
      new ++ replaceChars old new fuel ((c :: t).drop old.length)
    else
      c :: replaceChars old new fuel t

/-- Python `s.replace(old, new)` for a nonempty pattern string. -/
def pyReplaceStr (s old new : String) : String :=
  ⟨replaceChars old.data new.data s.data.length s.data⟩

/-- Python `s.strip()`: whitespace removed from both ends. -/
def pyStrip (s : String) : String :=
  ⟨((s.data.dropWhile Char.isWhitespace).reverse.dropWhile Char.isWhitespace).reverse⟩

/-- Python `s.lstrip('-')`. -/
def pyLstripDash (s : String) : String :=
  ⟨s.data.dropWhile (· == '-')⟩

/-- Python `s.startswith(p)`. -/
def pyStartsWith (s p : String) : Bool :=
  p.data.isPrefixOf s.data

/-- Python `s.endswith(p)`. -/
def pyEndsWith (s p : String) : Bool :=
  p.data.isSuffixOf s.data

/-- Python slicing `s[n:]` (drop the first `n` characters). -/
def pyDropChars (s : String) (n : Nat) : String :=
  ⟨s.data.drop n⟩

/-! ## `agent/risk_manager.py`: the pure merge helpers -/

namespace RiskManager

/-- The `risk_priority` dict of `_determine_final_risk_level`
(risk_manager.py lines 175-184). -/
def risk_priority : List (String × Int) :=
  [("CRITICAL", 7), ("BLOCKED", 6), ("RISKY", 5), ("HIGH", 4),
   ("MEDIUM", 3), ("LOW", 2), ("UNKNOWN", 1), ("SAFE", 0)]

/-- `risk_priority.get(level, -1)`. -/
def risk_priority_get (level : String) : Int :=
  (risk_priority.lookup level).getD (-1)

/-- `RiskManager._determine_final_risk_level` (risk_manager.py lines
170-193): each of the two optional levels is mapped to its priority
(`-1` when falsy or unknown) and the one with the larger priority is
returned, the static one winning ties; a falsy winner becomes
`"UNKNOWN"`. -/
def determine_final_risk_level (static_level ai_level : Option String) : String :=
  let static_priority : Int :=
    if strOptTruthy static_level then risk_priority_get (static_level.getD "") else -1
  let ai_priority : Int :=
    if strOptTruthy ai_level then risk_priority_get (ai_level.getD "") else -1
  if static_priority ≥ ai_priority then
    if strOptTruthy static_level then static_level.getD "" else "UNKNOWN"
  else
    if strOptTruthy ai_level then ai_level.getD "" else "UNKNOWN"

/-- `RiskManager._combine_risk_reasons` (risk_manager.py lines 195-210):
collects the truthy reasons, each with its layer prefix, and joins them
with `" | "`; a fixed fallback when both are absent. -/
def combine_risk_reasons (static_reason ai_reason : Option String)
    (final_level : String) : String :=
  let reasons : List String :=
    (if strOptTruthy static_reason then ["Database: " ++ static_reason.getD ""] else []) ++
    (if strOptTruthy ai_reason then ["AI Analysis: " ++ ai_reason.getD ""] else [])
  if reasons.isEmpty then "No specific risk information available"
  else pyJoin " | " reasons

end RiskManager

/-- The eight risk levels named by the specification's merge rule. -/
def riskLevelNames : List String :=
  ["SAFE", "LOW", "MEDIUM", "HIGH", "RISKY", "CRITICAL", "BLOCKED", "UNKNOWN"]

/-- The specification's fixed total order, highest priority first:
CRITICAL > BLOCKED > RISKY > HIGH > MEDIUM > LOW > UNKNOWN > SAFE.
A level's rank is its position in this list (smaller = higher priority). -/
def specLevelRank (level : String) : Nat :=
  ["CRITICAL", "BLOCKED", "RISKY", "HIGH", "MEDIUM", "LOW", "UNKNOWN", "SAFE"].indexOf level

/-- C1: for every pair of risk levels drawn from the eight named ones, the
merge returns the level of higher priority under the specification's order
(the common level when the two are equal), and when both a static and an AI
reason are present the combined explanation is the concatenation of both
reasons with the `" | "` separator. -/
theorem risk_merge_follows_spec_order :
    (∀ a ∈ riskLevelNames, ∀ b ∈ riskLevelNames,
      RiskManager.determine_final_risk_level (some a) (some b) =
        if specLevelRank a ≤ specLevelRank b then a else b) ∧
    (∀ (sr ar fl : String), sr ≠ "" → ar ≠ "" →
      RiskManager.combine_risk_reasons (some sr) (some ar) fl =
        ("Database: " ++ sr) ++ " | " ++ ("AI Analysis: " ++ ar)) := by
  constructor
  · decide
  · intro sr ar fl hsr har
    simp [RiskManager.combine_risk_reasons, strOptTruthy, pyJoin, hsr, har]

/-- Witness for C1 at a concrete pair of levels and concrete reasons. -/
theorem risk_merge_follows_spec_order_witness :
    RiskManager.determine_final_risk_level (some "HIGH") (some "LOW") =
      (if specLevelRank "HIGH" ≤ specLevelRank "LOW" then "HIGH" else "LOW") ∧
    RiskManager.combine_risk_reasons (some "rm detected") (some "ai concurs") "HIGH" =
      ("Database: " ++ "rm detected") ++ " | " ++ ("AI Analysis: " ++ "ai concurs") := by
  exact ⟨risk_merge_follows_spec_order.1 "HIGH" (by decide) "LOW" (by decide),
         risk_merge_follows_spec_order.2 "rm detected" "ai concurs" "HIGH"
           (by decide) (by decide)⟩

/-! ## `api/services/hash_service.py`: the hash generation service

The `hashlib` digest functions are external to the repository, so the
embedding takes an oracle `hashlib : String → List Nat → String` giving the
hex digest produced by the algorithm of a given name on a byte sequence.
-/

/-- The UTF-8 encoding of one character, as a list of byte values. -/
def utf8EncodeChar (c : Char) : List Nat :=
  let v := c.toNat
  if v < 0x80 then [v]
  else if v < 0x800 then
    [0xC0 ||| (v >>> 6), 0x80 ||| (v &&& 0x3F)]
  else if v < 0x10000 then
    [0xE0 ||| (v >>> 12), 0x80 ||| ((v >>> 6) &&& 0x3F), 0x80 ||| (v &&& 0x3F)]
  else
    [0xF0 ||| (v >>> 18), 0x80 ||| ((v >>> 12) &&& 0x3F),
     0x80 ||| ((v >>> 6) &&& 0x3F), 0x80 ||| (v &&& 0x3F)]

/-- Python's `text.encode('utf-8')`: the UTF-8 bytes of a string. -/
def utf8Encode (s : String) : List Nat :=
  (s.data.map utf8EncodeChar).flatten

namespace HashService

/-- The keys of `HashService.SUPPORTED_HASHES` (hash_service.py lines
15-28), in dict order. -/
def SUPPORTED_HASHES : List String :=
  ["md5", "sha1", "sha224", "sha256", "sha384", "sha512",
   "sha3_224", "sha3_256", "sha3_384", "sha3_512", "blake2b", "blake2s"]

/-- The dict returned by `HashService.generate_hash`. -/
structure HashResult : Type where
  hash : String
  hash_type : String
  input : String
  input_length : Nat
  command : String
deriving DecidableEq, Repr

/-- `HashService.generate_hash` (hash_service.py lines 30-57): lowercases
the hash type and replaces `-` with `_`; raises `ValueError` when the
result is not a supported algorithm name, otherwise hex-digests the UTF-8
encoding of the input via the `hashlib` oracle. -/
def generate_hash (hashlib : String → List Nat → String)
    (input_text : String) (hash_type : String) : Except String HashResult :=
  let hash_type_lower := pyReplaceChar (pyLower hash_type) '-' '_'
  if hash_type_lower ∉ SUPPORTED_HASHES then
    Except.error ("Unsupported hash type: " ++ hash_type ++ ". Supported: " ++
      pyJoin ", " SUPPORTED_HASHES)
  else
    let hash_value := hashlib hash_type_lower (utf8Encode input_text)
    Except.ok
      { hash := hash_value
        hash_type := hash_type_lower
        input := input_text
        input_length := input_text.length
        command := "echo -n '" ++ input_text ++ "' | " ++ hash_type_lower ++
          "sum | cut -d' ' -f1" }

end HashService

/-- C6: `generate_hash` raises a `ValueError` naming the unsupported type
exactly when the normalized hash type (lowercased, `-` replaced by `_`) is
not among the twelve supported algorithms; for every supported type it
returns normally with a result whose `hash` field is the digest of the
UTF-8-encoded input text under the requested algorithm. -/
theorem generate_hash_error_iff_unsupported
    (hashlib : String → List Nat → String) (input_text hash_type : String) :
    ((pyReplaceChar (pyLower hash_type) '-' '_') ∉ HashService.SUPPORTED_HASHES →
      HashService.generate_hash hashlib input_text hash_type =
        Except.error ("Unsupported hash type: " ++ hash_type ++ ". Supported: " ++
          pyJoin ", " HashService.SUPPORTED_HASHES)) ∧
    ((pyReplaceChar (pyLower hash_type) '-' '_') ∈ HashService.SUPPORTED_HASHES →
      (HashService.generate_hash hashlib input_text hash_type).toOption.map
          HashService.HashResult.hash =
        some (hashlib (pyReplaceChar (pyLower hash_type) '-' '_') (utf8Encode input_text))) := by
  constructor
  · intro h
    simp [HashService.generate_hash, h]
  · intro h
    simp [HashService.generate_hash, h, Except.toOption]

/-- Witness for C6: `"sha999"` is rejected with the error naming it, while
`"SHA3-256"` normalizes to the supported `"sha3_256"` and succeeds. -/
theorem generate_hash_error_iff_unsupported_witness :
    (HashService.generate_hash (fun n _ => n) "abc" "sha999" =
      Except.error ("Unsupported hash type: " ++ "sha999" ++ ". Supported: " ++
        pyJoin ", " HashService.SUPPORTED_HASHES)) ∧
    ((HashService.generate_hash (fun n _ => n) "abc" "SHA3-256").toOption.map
        HashService.HashResult.hash =
      some ((fun (n : String) (_ : List Nat) => n)
        (pyReplaceChar (pyLower "SHA3-256") '-' '_') (utf8Encode "abc"))) := by
  exact ⟨(generate_hash_error_iff_unsupported (fun n _ => n) "abc" "sha999").1 (by decide),
         (generate_hash_error_iff_unsupported (fun n _ => n) "abc" "SHA3-256").2 (by decide)⟩

/-- A concrete `generate_hash` result used by the determinism witness. -/
def hashDetExample : HashService.HashResult :=
  { hash := "md5"
    hash_type := "md5"
    input := "a"
    input_length := 1
    command := "echo -n 'a' | md5sum | cut -d' ' -f1" }

/-- C7: hash generation is deterministic: two successful calls of
`generate_hash` on the same input text and hash type (under the same
digest oracle) produce the same `hash` value. -/
theorem generate_hash_deterministic
    (hashlib : String → List Nat → String) (input_text hash_type : String)
    (r1 r2 : HashService.HashResult)
    (h1 : HashService.generate_hash hashlib input_text hash_type = Except.ok r1)
    (h2 : HashService.generate_hash hashlib input_text hash_type = Except.ok r2) :
    r1.hash = r2.hash := by
  have : Except.ok (ε := String) r1 = Except.ok r2 := h1.symm.trans h2
  cases this
  rfl

/-- Witness for C7 at a concrete input, hash type and digest oracle. -/
theorem generate_hash_deterministic_witness :
    hashDetExample.hash = hashDetExample.hash :=
  generate_hash_deterministic (fun n _ => n) "a" "md5" hashDetExample hashDetExample
    (by rfl) (by rfl)

/-! ## `agent/llm_engine.py`: the Gemini retry loop

Each network attempt's outcome is an oracle value: success with a text, a
blocked response, an empty response, or a raised exception carrying a
message. The loop of `_call_google_gemini` is embedded over the concrete
attempt-index list `[0, 1, 2]` (Python's `range(3)` with
`max_retries = 3`).
-/

namespace LLMEngine

/-- Outcome of one `google_model.generate_content` attempt. -/
inductive AttemptOutcome : Type where
  | success (text : String)
  | blocked (reason : String)
  | empty
  | exn (msg : String)
deriving DecidableEq, Repr

/-- The retryable-error keywords of `_call_google_gemini`
(llm_engine.py lines 134-136). -/
def retryKeywords : List String :=
  ["timeout", "timed out", "504", "503", "502", "429", "rate limit", "quota"]

/-- `any(keyword in error_msg.lower() for keyword in [...])`. -/
def is_retryable (error_msg : String) : Bool :=
  retryKeywords.any (fun k => containsSub (pyLower error_msg) k)

/-- The progressive timeout of attempt `i` (llm_engine.py line 113):
`45 + attempt * 15` seconds, i.e. 45s, 60s, 75s. -/
def timeoutFor (attempt : Nat) : Nat :=
  45 + attempt * 15

/-- The backoff before retrying after attempt `i` (llm_engine.py line
139): `(attempt + 1) * 2` seconds, i.e. 2s, 4s, 6s. -/
def waitTimeFor (attempt : Nat) : Nat :=
  (attempt + 1) * 2

/-- The body of the `for attempt in range(max_retries)` loop of
`_call_google_gemini` (llm_engine.py lines 110-153), run over the list of
remaining attempt indices. Returns the `(success, message)` pair together
with the number of attempts actually made. An exception is retried only
when further attempts remain (`attempt < max_retries - 1`) and its message
matches a retryable keyword; blocked and empty responses return
immediately. -/
def runAttempts (oracle : Nat → AttemptOutcome) : List Nat → (Bool × String) × Nat
  | [] => ((false, "Google Gemini API call failed: Maximum retries exceeded"), 0)
  | attempt :: rest =>
    match oracle attempt with
    | .success text => ((true, text), 1)
    | .blocked reason => ((false, "Content blocked by Gemini: " ++ reason), 1)
    | .empty => ((false, "Gemini returned empty response"), 1)
    | .exn error_msg =>
      if !rest.isEmpty && is_retryable error_msg then
        let r := runAttempts oracle rest
        (r.1, r.2 + 1)
      else
        ((false, "Google Gemini API call failed after " ++ toString (attempt + 1) ++
          " attempts: " ++ error_msg), 1)

/-- `LLMEngine._call_google_gemini` (llm_engine.py lines 93-153):
`max_retries = 3`, attempts indexed 0, 1, 2; when the model is not
configured it fails immediately without any attempt. -/
def call_google_gemini (configured : Bool) (oracle : Nat → AttemptOutcome) :
    (Bool × String) × Nat :=
  if !configured then ((false, "Google Gemini not configured"), 0)
  else runAttempts oracle [0, 1, 2]

/-- `LLMEngine.generate_response` (llm_engine.py lines 73-91): checks
readiness, optionally appends the JSON instruction, and delegates to
`_call_google_gemini`. -/
def generate_response (configured : Bool) (oracle : Nat → AttemptOutcome)
    (prompt : String) (is_json : Bool) : (Bool × String) × Nat :=
  if !configured then
    ((false, "Google Gemini is not configured. Please check your GOOGLE_API_KEY."), 0)
  else
    let _prompt :=
      if is_json then prompt ++ "\n\nPlease format your response as valid JSON." else prompt
    call_google_gemini configured oracle

end LLMEngine

/-- C4: the Gemini call is a bounded retry loop: it never makes more than
3 attempts; whenever no attempt returns a success outcome the result is a
`(false, error-string)` pair rather than an exception; and the per-attempt
timeout and backoff both increase linearly (by 15s and 2s per attempt). -/
theorem gemini_retry_bounded (configured : Bool)
    (oracle : Nat → LLMEngine.AttemptOutcome) (prompt : String) (is_json : Bool) :
    ((LLMEngine.generate_response configured oracle prompt is_json).2 ≤ 3) ∧
    ((∀ i, i < 3 → ∀ t, oracle i ≠ .success t) →
      (LLMEngine.generate_response configured oracle prompt is_json).1.1 = false) ∧
    (∀ a : Nat, LLMEngine.timeoutFor (a + 1) = LLMEngine.timeoutFor a + 15) ∧
    (∀ a : Nat, LLMEngine.waitTimeFor (a + 1) = LLMEngine.waitTimeFor a + 2) := by
  refine ⟨?_, ?_, fun a => by simp [LLMEngine.timeoutFor]; ring,
          fun a => by simp [LLMEngine.waitTimeFor]; ring⟩
  · cases configured with
    | false => simp [LLMEngine.generate_response]
    | true =>
      simp only [LLMEngine.generate_response, LLMEngine.call_google_gemini]
      simp only [Bool.not_true, Bool.false_eq_true, if_false]
      cases h0 : oracle 0 <;> cases h1 : oracle 1 <;> cases h2 : oracle 2 <;>
        simp [LLMEngine.runAttempts, h0, h1, h2] <;> split <;> simp <;> split <;> simp
  · intro hfail
    cases configured with
    | false => simp [LLMEngine.generate_response]
    | true =>
      have h0 := hfail 0 (by omega)
      have h1 := hfail 1 (by omega)
      have h2 := hfail 2 (by omega)
      simp only [LLMEngine.generate_response, LLMEngine.call_google_gemini]
      simp only [Bool.not_true, Bool.false_eq_true, if_false]
      cases e0 : oracle 0 <;> cases e1 : oracle 1 <;> cases e2 : oracle 2 <;>
        simp_all [LLMEngine.runAttempts] <;> split <;> simp <;> split <;> simp

/-- Witness for C4: a concrete oracle whose every attempt raises a
retryable timeout exception; the loop makes three attempts and surfaces
a `(false, message)` pair. -/
theorem gemini_retry_bounded_witness :
    ((LLMEngine.generate_response true (fun _ => .exn "504 timeout") "p" false).2 ≤ 3) ∧
    ((LLMEngine.generate_response true (fun _ => .exn "504 timeout") "p" false).1.1 = false) ∧
    (LLMEngine.timeoutFor 1 = LLMEngine.timeoutFor 0 + 15) ∧
    (LLMEngine.waitTimeFor 1 = LLMEngine.waitTimeFor 0 + 2) := by
  have h := gemini_retry_bounded true (fun _ => .exn "504 timeout") "p" false
  exact ⟨h.1, h.2.1 (by intro i _ t; simp), h.2.2.1 0, h.2.2.2 0⟩

/-! ## `agent/risk_manager.py`: construction and `assess_risk`

The file system is modelled by the readable contents of the two files the
constructor opens: `none` stands for a file that cannot be read (or, for
the JSON database, parsed). Regular-expression search and the LLM call are
oracles; the embedding records an `Effect` for every pattern tried against
the static database and for every LLM call, so that "no database check, no
LLM call" is expressible.
-/

namespace RiskManager

/-- One entry of the risk database: the optional `risk` and `explanation`
fields of the JSON object attached to a pattern. -/
structure RiskInfo : Type where
  risk : Option String
  explanation : Option String
deriving DecidableEq, Repr

/-- The readable file contents seen by the constructor. -/
structure FS : Type where
  risk_database_file : Option (List (String × RiskInfo))
  risk_prompt_file : Option String

/-- `RiskManager._load_risk_database` (risk_manager.py lines 37-45):
`FileNotFoundError` and `JSONDecodeError` are caught and an empty
database returned, so loading never raises. -/
def load_risk_database (fs : FS) : List (String × RiskInfo) :=
  match fs.risk_database_file with
  | some db => db
  | none => []

/-- `RiskManager._load_prompt_template` (risk_manager.py lines 47-56):
a missing `risk_prompt.txt` is logged as fatal and the
`FileNotFoundError` re-raised. -/
def load_prompt_template (fs : FS) : Except String String :=
  match fs.risk_prompt_file with
  | some template => Except.ok template
  | none => Except.error "FileNotFoundError: risk_prompt.txt"

/-- The state a fully constructed `RiskManager` holds. -/
structure State : Type where
  risk_database : List (String × RiskInfo)
  prompt_template : String

/-- `RiskManager.__init__` (risk_manager.py lines 25-35): loads the
database (never raising) and then the prompt template (raising when it is
missing). -/
def init (fs : FS) : Except String State := do
  let db := load_risk_database fs
  let template ← load_prompt_template fs
  return { risk_database := db, prompt_template := template }

end RiskManager

/-- Counterexample to C5: with the risk database file unreadable but the
prompt template present, `RiskManager` construction completes normally
with an empty database — it does not raise, contradicting the claim that a
missing risk database file is fatal at startup. -/
theorem risk_db_missing_not_fatal :
    RiskManager.init
        { risk_database_file := none, risk_prompt_file := some "Assess: {command}" } =
      Except.ok { risk_database := [], prompt_template := "Assess: {command}" } := by
  rfl

/-- C5 (amended): a missing prompt template file is fatal — construction
raises; a missing (or unparsable) risk database file is not: construction
completes with the database silently replaced by an empty one, disabling
static checks. -/
theorem risk_manager_init_fatal_only_for_prompt (fs : RiskManager.FS) :
    (fs.risk_prompt_file = none → ∃ e, RiskManager.init fs = Except.error e) ∧
    (∀ t, fs.risk_prompt_file = some t →
      RiskManager.init fs =
        Except.ok { risk_database := RiskManager.load_risk_database fs,
                    prompt_template := t }) := by
  constructor
  · intro h
    refine ⟨"FileNotFoundError: risk_prompt.txt", ?_⟩
    simp [RiskManager.init, RiskManager.load_prompt_template, h, Bind.bind, Except.bind]
  · intro t h
    simp [RiskManager.init, RiskManager.load_prompt_template, h, Bind.bind, Except.bind,
      Pure.pure, Except.pure]

/-- Witness for C5 at two concrete file systems: one missing the prompt
(construction raises), one having it (construction succeeds). -/
theorem risk_manager_init_fatal_only_for_prompt_witness :
    (∃ e, RiskManager.init
        { risk_database_file := some [], risk_prompt_file := none } = Except.error e) ∧
    (RiskManager.init
        { risk_database_file := some [], risk_prompt_file := some "tmpl" } =
      Except.ok { risk_database := RiskManager.load_risk_database
                    { risk_database_file := some [], risk_prompt_file := some "tmpl" },
                  prompt_template := "tmpl" }) := by
  exact ⟨(risk_manager_init_fatal_only_for_prompt
            { risk_database_file := some [], risk_prompt_file := none }).1 rfl,
         (risk_manager_init_fatal_only_for_prompt
            { risk_database_file := some [], risk_prompt_file := some "tmpl" }).2 "tmpl" rfl⟩

/-- Python `s.split(sep, 1)` restricted to the case where it splits:
the text before and after the first occurrence of `sep`, or `Option.none`
when `sep` does not occur. -/
def splitFirstAux (sep acc : List Char) : List Char → Option (List Char × List Char)
  | [] => none
  | c :: t =>
    if sep.isPrefixOf (c :: t) then some (acc.reverse, (c :: t).drop sep.length)
    else splitFirstAux sep (c :: acc) t

/-- `pySplitOnce s sep` is `some (before, after)` for the first occurrence
of `sep` in `s`, and `none` when `sep` is not a substring (for nonempty
`sep` this matches Python's `sep in s` guard followed by
`s.split(sep, 1)`). -/
def pySplitOnce (s sep : String) : Option (String × String) :=
  (splitFirstAux sep.data [] s.data).map (fun p => (⟨p.1⟩, ⟨p.2⟩))

/-- The JSON value rendering used by `json.dumps` for the argument dicts
this program passes (string escaping not modelled). -/
def jsonVal : PyVal → String
  | .str s => "\"" ++ s ++ "\""
  | .bool b => if b then "true" else "false"
  | .int n => toString n
  | .none => "null"

/-- `json.dumps(args)` for a flat dict of `PyVal`s. -/
def jsonDumps (args : List (String × PyVal)) : String :=
  "\x7b" ++ pyJoin ", " (args.map (fun kv => "\"" ++ kv.1 ++ "\": " ++ jsonVal kv.2)) ++ "\x7d"

namespace RiskManager

/-- An observable side effect of `assess_risk`: one regex tried against
the static database, or one LLM call issued. -/
inductive Effect : Type where
  | regexCheck (pattern : String)
  | llmCall (prompt : String)
deriving DecidableEq, Repr

/-- `RiskManager._check_static_database` (risk_manager.py lines 58-67):
walks the database in order; `re.search` is the oracle (its `none` result
models an `re.error`, which the code logs and skips); the first matching
pattern produces `"{risk}: {explanation}"` with the dict defaults. Every
pattern tried is recorded as an effect. -/
def check_static_database (regex : String → String → Option Bool)
    (db : List (String × RiskInfo)) (command : String) : Option String × List Effect :=
  match db with
  | [] => (none, [])
  | (pattern, risk_info) :: rest =>
    match regex pattern command with
    | some true =>
      (some ((risk_info.risk.getD "UNKNOWN") ++ ": " ++
        (risk_info.explanation.getD "No explanation provided.")), [Effect.regexCheck pattern])
    | _ =>
      let r := check_static_database regex rest command
      (r.1, Effect.regexCheck pattern :: r.2)

/-- The dict returned by `RiskManager.assess_risk`. -/
structure RiskResult : Type where
  level : String
  reason : String
  explanation : String
  database_match : Option String
  ai_analysis : Option String
deriving DecidableEq, Repr

/-- `RiskManager.assess_risk` (risk_manager.py lines 69-168). An empty or
`None` command returns the fixed UNKNOWN dict at once. Otherwise layer 1
checks the static database (only when `args` is falsy), layer 2 always
formats the prompt template with the context and calls the LLM oracle,
and layer 3 merges the two opinions. The effect list records the regex
checks performed and the LLM call issued. The `": "` split of the static
match is written as a match on `pySplitOnce` (equivalent to the code's
`": " in s` guard plus `s.split(": ", 1)`). -/
def assess_risk (regex : String → String → Option Bool) (llm : String → Bool × String)
    (st : State) (command : Option String) (args : Option (List (String × PyVal))) :
    RiskResult × List Effect :=
  if !strOptTruthy command then
    ({ level := "UNKNOWN"
       reason := "No command provided for risk assessment."
       explanation := "No command provided for risk assessment."
       database_match := none
       ai_analysis := none }, [])
  else
    let cmd := command.getD ""
    let argsFalsy := match args with | Option.none => true | Option.some l => l.isEmpty
    let staticRes :=
      if argsFalsy then check_static_database regex st.risk_database cmd
      else (none, [])
    let database_match := staticRes.1
    let staticLevels : Option String × Option String :=
      match staticRes.1 with
      | Option.none => (none, none)
      | Option.some s =>
        if containsSub (pyUpper s) "SAFE" then
          (some "SAFE", some "Command matched safe pattern in risk database")
        else
          match pySplitOnce s ": " with
          | some p => (some p.1, some p.2)
          | none => (some "UNKNOWN", some s)
    let prompt_context :=
      match args with
      | Option.some a =>
        "Assess the risk of running the tool '" ++ cmd ++ "' with the arguments: " ++
          jsonDumps a
      | Option.none => "Assess the risk of running the Linux command: `" ++ cmd ++ "`"
    let prompt := pyReplaceStr st.prompt_template "{command}" prompt_context
    let llmRes := llm prompt
    let aiTriple : Option String × Option String × Option String :=
      if llmRes.1 then
        let response := llmRes.2
        if containsSub response "GENERATION_BLOCKED" then
          (some "AI safety filter blocked the assessment", some "BLOCKED",
           some "AI safety filter blocked the risk assessment; treat as potentially risky.")
        else if pyStartsWith (pyLower response) "risky:" then
          let r := pyStrip (pyDropChars response 6)
          (some r, some "RISKY", some r)
        else if pyStrip (pyLower response) = "safe" then
          (some "Safe operation confirmed by AI analysis", some "SAFE",
           some "AI analysis confirms command is safe")
        else
          (some response, some "UNKNOWN", some "Unexpected AI response format")
      else
        (some ("AI analysis failed: " ++ llmRes.2), some "UNKNOWN",
         some "Risk assessment failed due to an API error")
    let final_level := determine_final_risk_level staticLevels.1 aiTriple.2.1
    let final_reason := combine_risk_reasons staticLevels.2 aiTriple.2.2 final_level
    ({ level := final_level
       reason := final_reason
       explanation := final_reason
       database_match := database_match
       ai_analysis := aiTriple.1 },
     staticRes.2 ++ [Effect.llmCall prompt])

end RiskManager

/-- C9: for an empty (or absent) command, `assess_risk` returns the fixed
UNKNOWN result with `database_match` and `ai_analysis` both `None`, and
performs no effect at all — in particular no database regex check and no
LLM call — whatever the oracles, the manager state and the arguments. -/
theorem assess_risk_empty_command (regex : String → String → Option Bool)
    (llm : String → Bool × String) (st : RiskManager.State)
    (command : Option String) (args : Option (List (String × PyVal)))
    (h : strOptTruthy command = false) :
    RiskManager.assess_risk regex llm st command args =
      ({ level := "UNKNOWN"
         reason := "No command provided for risk assessment."
         explanation := "No command provided for risk assessment."
         database_match := none
         ai_analysis := none }, []) := by
  simp [RiskManager.assess_risk, h]

/-- Witness for C9: the empty command, with oracles that would otherwise
report a match and a risky opinion, still yields the fixed UNKNOWN result
and an empty effect list. -/
theorem assess_risk_empty_command_witness :
    RiskManager.assess_risk (fun _ _ => some true) (fun _ => (true, "Risky: bad"))
        { risk_database := [("rm", { risk := some "HIGH", explanation := some "deletes" })],
          prompt_template := "Assess: {command}" }
        (some "") (some [("target", PyVal.str "x")]) =
      ({ level := "UNKNOWN"
         reason := "No command provided for risk assessment."
         explanation := "No command provided for risk assessment."
         database_match := none
         ai_analysis := none }, []) :=
  assess_risk_empty_command (fun _ _ => some true) (fun _ => (true, "Risky: bad"))
    { risk_database := [("rm", { risk := some "HIGH", explanation := some "deletes" })],
      prompt_template := "Assess: {command}" }
    (some "") (some [("target", PyVal.str "x")]) (by decide)

/-! ## `agent/session_manager.py`: bounded in-memory context

Only the members touching `recent_actions` and `conversation_history` are
embedded; the SQLite insert is an oracle boolean (`db_ok`) saying whether
the statements inside the `try` block preceding the list update succeed.
-/

namespace SessionManager

/-- Python `l[-k:]`: the last `k` elements of a list. -/
def takeLast (k : Nat) (l : List α) : List α :=
  l.drop (l.length - k)

/-- One entry of `recent_actions` (the dict built at
session_manager.py lines 314-321). -/
structure ActionEntry : Type where
  timestamp : String
  user_input : String
  action : String
  type : String
  tool : Option String
  success : Bool
deriving DecidableEq, Repr

/-- One entry of `conversation_history` (the dict built at
session_manager.py lines 400-404). -/
structure Turn : Type where
  role : String
  content : String
  timestamp : String
deriving DecidableEq, Repr

/-- The in-memory context of a `SessionManager` (session_manager.py lines
57-58), plus whether a database connection exists. -/
structure State : Type where
  conn : Bool
  recent_actions : List ActionEntry
  conversation_history : List Turn
deriving DecidableEq, Repr

/-- `SessionManager.add_interaction` (session_manager.py lines 275-329):
returns unchanged without a connection; when the SQLite insert raises
(`db_ok = false`) the `except` clause leaves the list unchanged;
otherwise the new entry is appended and the list trimmed to its last 10
elements (`self.recent_actions[-10:]`). -/
def add_interaction (s : State) (db_ok : Bool) (entry : ActionEntry) : State :=
  if !s.conn then s
  else if !db_ok then s
  else { s with recent_actions := takeLast 10 (s.recent_actions ++ [entry]) }

/-- `SessionManager.add_conversation_turn` (session_manager.py lines
392-407): appends the turn and trims to the last 20
(`self.conversation_history[-20:]`). -/
def add_conversation_turn (s : State) (turn : Turn) : State :=
  { s with conversation_history := takeLast 20 (s.conversation_history ++ [turn]) }

/-- `SessionManager.clear_conversation_context` (session_manager.py lines
421-424). -/
def clear_conversation_context (s : State) : State :=
  { s with conversation_history := [] }

/-- The bounds the claim states: at most the 10 most recent actions and
the 20 most recent conversation turns. -/
def contextBounded (s : State) : Prop :=
  s.recent_actions.length ≤ 10 ∧ s.conversation_history.length ≤ 20

instance (s : State) : Decidable (contextBounded s) := by
  unfold contextBounded; infer_instance

end SessionManager

/-- `takeLast k` never returns more than `k` elements. -/
theorem takeLast_length_le (k : Nat) (l : List α) :
    (SessionManager.takeLast k l).length ≤ k := by
  simp [SessionManager.takeLast]
  omega

/-- C10: the in-memory context stays bounded: from any state satisfying
the bounds, `add_interaction` keeps `recent_actions` at ≤ 10 entries,
`add_conversation_turn` keeps `conversation_history` at ≤ 20 turns, and
each of the three operations touching these lists preserves both bounds.
(No other `SessionManager` member modifies either list.) -/
theorem session_context_bounded (s : SessionManager.State) (db_ok : Bool)
    (entry : SessionManager.ActionEntry) (turn : SessionManager.Turn)
    (h : SessionManager.contextBounded s) :
    SessionManager.contextBounded (SessionManager.add_interaction s db_ok entry) ∧
    SessionManager.contextBounded (SessionManager.add_conversation_turn s turn) ∧
    SessionManager.contextBounded (SessionManager.clear_conversation_context s) := by
  obtain ⟨h1, h2⟩ := h
  refine ⟨?_, ?_, ?_⟩
  · unfold SessionManager.add_interaction
    split
    · exact ⟨h1, h2⟩
    · split
      · exact ⟨h1, h2⟩
      · exact ⟨takeLast_length_le 10 _, h2⟩
  · exact ⟨h1, takeLast_length_le 20 _⟩
  · exact ⟨h1, by simp [SessionManager.clear_conversation_context]⟩

/-- Witness for C10 starting from the empty fresh state. -/
theorem session_context_bounded_witness :
    SessionManager.contextBounded
      (SessionManager.add_interaction
        { conn := true, recent_actions := [], conversation_history := [] } true
        { timestamp := "t", user_input := "ls", action := "ls", type := "command",
          tool := none, success := true }) ∧
    SessionManager.contextBounded
      (SessionManager.add_conversation_turn
        { conn := true, recent_actions := [], conversation_history := [] }
        { role := "user", content := "hi", timestamp := "t" }) ∧
    SessionManager.contextBounded
      (SessionManager.clear_conversation_context
        { conn := true, recent_actions := [], conversation_history := [] }) :=
  session_context_bounded
    { conn := true, recent_actions := [], conversation_history := [] } true
    { timestamp := "t", user_input := "ls", action := "ls", type := "command",
      tool := none, success := true }
    { role := "user", content := "hi", timestamp := "t" } (by decide)

/-! ## `api/services/tool_executor/parameter_builder.py`

A declared parameter is a registry dict with an optional flag, the three
booleans and the fuzzy-match keywords; user parameters are a dict of
`PyVal`s, modelled as an association list (first binding wins, as in a
Python dict with distinct keys).
-/

namespace ParameterBuilder

/-- One parameter definition from a tool registry. -/
structure Param : Type where
  flag : Option String
  requires_value : Bool := false
  is_positional : Bool := false
  is_bundle : Bool := false
  keywords : List String := []
  description : Option String := none
deriving DecidableEq, Repr

/-- The user-supplied parameter dict. -/
abbrev UserParams : Type := List (String × PyVal)

/-- Python truthiness of the raw `flag` registry value (`if flag:`). -/
def flagTruthy (flag : Option String) : Bool :=
  strOptTruthy flag

/-- The common positional key names of `_find_param_key`'s strategy 3
(parameter_builder.py line 154). -/
def commonPositionalNames : List String :=
  ["target", "file", "input", "url", "host", "domain"]

/-- The keyword loop of `_find_param_key`'s strategy 2
(parameter_builder.py lines 144-149): for each keyword try its
lowercased, space-to-underscore form, then the keyword itself. -/
def find_keyword_key (keywords : List String) (up : UserParams) : Option String :=
  match keywords with
  | [] => none
  | keyword :: rest =>
    let keyword_clean := pyReplaceChar (pyLower keyword) ' ' '_'
    if (List.lookup keyword_clean up).isSome then some keyword_clean
    else if (List.lookup keyword up).isSome then some keyword
    else find_keyword_key rest up

/-- Strategies 2 and 3 of `_find_param_key` (parameter_builder.py lines
143-156), reached when the flag matched nothing: the keyword loop, then,
for positional or flagless parameters, a fixed list of common key
names. -/
def find_key_fallback (p : Param) (up : UserParams) : Option String :=
  match find_keyword_key p.keywords up with
  | some k => some k
  | none =>
    if p.is_positional || !flagTruthy p.flag then
      commonPositionalNames.find? (fun key => (List.lookup key up).isSome)
    else none

/-- `ParameterBuilder._find_param_key` (parameter_builder.py lines
117-158): strategy 1 tries the flag without leading dashes and with
dashes replaced by underscores, then the raw flag, then the flag with all
dashes replaced; strategies 2 and 3 are `find_key_fallback`. -/
def find_param_key (p : Param) (up : UserParams) : Option String :=
  let step1 : Option String :=
    match p.flag with
    | Option.some flag =>
      if flag != "" then
        let flag_clean := pyReplaceChar (pyLstripDash flag) '-' '_'
        if (List.lookup flag_clean up).isSome then some flag_clean
        else if (List.lookup flag up).isSome then some flag
        else
          let flag_underscore := pyReplaceChar flag '-' '_'
          if (List.lookup flag_underscore up).isSome then some flag_underscore
          else none
      else none
    | Option.none => none
  match step1 with
  | some k => some k
  | none => find_key_fallback p up

/-- `param.get('description', 'positional argument').split('.')[0]`
(parameter_builder.py lines 63 and 219). -/
def paramName (p : Param) : String :=
  ⟨(p.description.getD "positional argument").data.takeWhile (fun c => c ≠ '.')⟩

/-- The missing-required-parameter message. -/
def reqMissingErr (p : Param) : String :=
  "Required parameter '" ++ paramName p ++ "' is missing"

/-- The three accumulators of `build_command`: `command_parts` (base
command and flags), `positional_args`, and `errors`. -/
structure BuildAcc : Type where
  parts : List String
  positional : List String
  errors : List String
deriving DecidableEq, Repr

/-- The body of `build_command`'s parameter loop (parameter_builder.py
lines 50-104) for one parameter definition: an unmatched parameter errors
only when positional and requiring a value; a matched positional value
goes to `positional_args`; a bundle appends its flag; a flag requiring a
value appends flag and value (glued when the flag ends in `=`); a boolean
flag is appended when the value is truthy; a matched flagless parameter's
truthy value goes to `positional_args`. -/
def process_param (up : UserParams) (acc : BuildAcc) (p : Param) : BuildAcc :=
  match find_param_key p up with
  | Option.none =>
    if p.is_positional && p.requires_value then
      { acc with errors := acc.errors ++ [reqMissingErr p] }
    else acc
  | Option.some param_key =>
    let value := (List.lookup param_key up).getD PyVal.none
    if p.is_positional then
      if value.truthy then { acc with positional := acc.positional ++ [value.toStr] }
      else if p.requires_value then
        { acc with errors := acc.errors ++ ["Positional argument requires a value"] }
      else acc
    else if p.is_bundle then
      if flagTruthy p.flag then { acc with parts := acc.parts ++ [p.flag.getD ""] }
      else acc
    else if flagTruthy p.flag then
      let flag := p.flag.getD ""
      if p.requires_value then
        if value.truthy && value != PyVal.str "" then
          if containsSub flag "=" && pyEndsWith flag "=" then
            { acc with parts := acc.parts ++ [flag ++ value.toStr] }
          else
            { acc with parts := acc.parts ++ [flag, value.toStr] }
        else acc
      else
        if value.truthy || value == PyVal.bool true then
          { acc with parts := acc.parts ++ [flag] }
        else acc
    else
      if value.truthy then { acc with positional := acc.positional ++ [value.toStr] }
      else acc

/-- `ParameterBuilder.build_command` (parameter_builder.py lines 21-115):
folds the parameter loop from `[base_command]`, then appends the
positional arguments and joins with spaces. -/
def build_command (base_command : String) (parameters : List Param)
    (user_params : UserParams) : String × List String :=
  let acc := parameters.foldl (process_param user_params)
    { parts := [base_command], positional := [], errors := [] }
  (pyJoin " " (acc.parts ++ acc.positional), acc.errors)

/-- What one parameter contributes to `command_parts`. -/
def flagContrib (up : UserParams) (p : Param) : List String :=
  (process_param up { parts := [], positional := [], errors := [] } p).parts

/-- What one parameter contributes to `positional_args`. -/
def posContrib (up : UserParams) (p : Param) : List String :=
  (process_param up { parts := [], positional := [], errors := [] } p).positional

/-- What one parameter contributes to `build_command`'s errors. -/
def errContrib (up : UserParams) (p : Param) : List String :=
  (process_param up { parts := [], positional := [], errors := [] } p).errors

/-- The loop body of `validate_required_params` (parameter_builder.py
lines 209-229) for one parameter: a positional parameter without a flag
whose key is absent or whose value is falsy is reported missing; a flag
parameter requiring a value whose matched value is `None` or the empty
string is reported as needing a value. -/
def validate_one (up : UserParams) (p : Param) : List String :=
  let e1 : List String :=
    if p.is_positional && !flagTruthy p.flag then
      match find_param_key p up with
      | Option.none => [reqMissingErr p]
      | Option.some param_key =>
        if !((List.lookup param_key up).getD PyVal.none).truthy then [reqMissingErr p]
        else []
    else []
  let e2 : List String :=
    if flagTruthy p.flag && p.requires_value then
      match find_param_key p up with
      | Option.some param_key =>
        let value := (List.lookup param_key up).getD PyVal.none
        if value == PyVal.none || value == PyVal.str "" then
          ["Flag '" ++ p.flag.getD "" ++ "' requires a value"]
        else []
      | Option.none => []
    else []
  e1 ++ e2

/-- `ParameterBuilder.validate_required_params` (parameter_builder.py
lines 193-231): collects the per-parameter errors in order and returns
`(no errors, errors)`. -/
def validate_required_params (parameters : List Param) (up : UserParams) :
    Bool × List String :=
  let errors := parameters.foldl (fun errs p => errs ++ validate_one up p) []
  (errors.isEmpty, errors)

end ParameterBuilder

namespace ParameterBuilder

/-- One loop step splits into the three per-parameter contributions. -/
theorem process_param_decomp (up : UserParams) (acc : BuildAcc) (p : Param) :
    process_param up acc p =
      { parts := acc.parts ++ flagContrib up p
        positional := acc.positional ++ posContrib up p
        errors := acc.errors ++ errContrib up p } := by
  unfold flagContrib posContrib errContrib process_param
  cases find_param_key p up <;> dsimp only <;> split_ifs <;> simp

/-- The whole parameter loop is the concatenation, in declaration order,
of the per-parameter contributions. -/
theorem foldl_process_decomp (up : UserParams) (ps : List Param) (acc : BuildAcc) :
    ps.foldl (process_param up) acc =
      { parts := acc.parts ++ ps.flatMap (flagContrib up)
        positional := acc.positional ++ ps.flatMap (posContrib up)
        errors := acc.errors ++ ps.flatMap (errContrib up) } := by
  induction ps generalizing acc with
  | nil => simp
  | cons p rest ih =>
    simp only [List.foldl_cons, List.flatMap_cons]
    rw [process_param_decomp, ih]
    simp

/-- `build_command` in terms of the per-parameter contributions: the base
command, then every flag contribution in declaration order, then every
positional contribution; the errors likewise in declaration order. -/
theorem build_command_decomp (b : String) (ps : List Param) (up : UserParams) :
    build_command b ps up =
      (pyJoin " " (b :: (ps.flatMap (flagContrib up) ++ ps.flatMap (posContrib up))),
       ps.flatMap (errContrib up)) := by
  unfold build_command
  rw [foldl_process_decomp]
  simp

/-- The validation loop likewise concatenates per-parameter error lists. -/
theorem validate_decomp (ps : List Param) (up : UserParams) :
    (validate_required_params ps up).2 = ps.flatMap (validate_one up) := by
  unfold validate_required_params
  dsimp only
  suffices h : ∀ (init : List String),
      ps.foldl (fun errs p => errs ++ validate_one up p) init =
        init ++ ps.flatMap (validate_one up) by
    simpa using h []
  induction ps with
  | nil => simp
  | cons p rest ih => intro init; simp [ih]

end ParameterBuilder

/-- Recognizes the missing-required-parameter messages among the builder's
validation errors. -/
def isMissingErr (e : String) : Bool :=
  pyStartsWith e "Required parameter"

/-- A prefix of a list stays a prefix after appending. -/
theorem isPrefixOf_append_right (n h t : List Char) (hp : n.isPrefixOf h = true) :
    n.isPrefixOf (h ++ t) = true := by
  simp only [List.isPrefixOf_iff_prefix] at hp ⊢
  exact hp.trans (List.prefix_append h t)

/-- Every missing-parameter message is recognized. -/
theorem isMissingErr_reqMissingErr (p : ParameterBuilder.Param) :
    isMissingErr (ParameterBuilder.reqMissingErr p) = true := by
  unfold isMissingErr ParameterBuilder.reqMissingErr pyStartsWith
  simp only [List.isPrefixOf_iff_prefix, String.data_append]
  refine List.IsPrefix.trans ?_ ((List.prefix_append _ _).trans (List.prefix_append _ _))
  decide

/-- The positional-value message is not a missing-parameter message. -/
theorem isMissingErr_posValErr :
    isMissingErr "Positional argument requires a value" = false := by
  decide

/-- The flag-needs-a-value messages are not missing-parameter messages. -/
theorem isMissingErr_flagValErr (f : String) :
    isMissingErr ("Flag '" ++ f ++ "' requires a value") = false := by
  unfold isMissingErr pyStartsWith
  simp [String.data_append, List.isPrefixOf]

/-- Counterexample to C2: a positional parameter that `has` a flag
(`"-f"`, requiring a value) and is absent from the user input does
contribute a `'Required parameter ... is missing'` error in
`build_command`, contradicting the claim that a declared parameter with a
flag never contributes a missing-parameter error. -/
theorem missing_error_despite_flag :
    ({ flag := some "-f", requires_value := true, is_positional := true } :
        ParameterBuilder.Param).flag = some "-f" ∧
    ParameterBuilder.build_command "tool"
        [{ flag := some "-f", requires_value := true, is_positional := true }] [] =
      ("tool", ["Required parameter 'positional argument' is missing"]) := by
  decide

/-- C2 (amended): in `build_command` a missing-parameter error for a
declared parameter is produced exactly when the parameter is positional,
requires a value and has no matching user key — whether or not it has a
flag; in `validate_required_params` it is produced exactly when the
parameter is positional, its flag is falsy, and its key is absent or its
matched value falsy. In both functions the errors are exactly the
per-parameter contributions in declaration order, so a non-positional
parameter with a flag missing from user input never contributes a
missing-parameter error. -/
theorem required_validation_characterization
    (up : ParameterBuilder.UserParams) (p : ParameterBuilder.Param) :
    ((ParameterBuilder.errContrib up p).any isMissingErr =
      (p.is_positional && p.requires_value &&
        (ParameterBuilder.find_param_key p up).isNone)) ∧
    ((ParameterBuilder.validate_one up p).any isMissingErr =
      (p.is_positional && !ParameterBuilder.flagTruthy p.flag &&
        (match ParameterBuilder.find_param_key p up with
         | Option.none => true
         | Option.some k => !((List.lookup k up).getD PyVal.none).truthy))) ∧
    (∀ (b : String) (ps : List ParameterBuilder.Param),
      (ParameterBuilder.build_command b ps up).2 =
        ps.flatMap (ParameterBuilder.errContrib up)) ∧
    (∀ ps : List ParameterBuilder.Param,
      (ParameterBuilder.validate_required_params ps up).2 =
        ps.flatMap (ParameterBuilder.validate_one up)) := by
  refine ⟨?_, ?_, ?_, ?_⟩
  · unfold ParameterBuilder.errContrib ParameterBuilder.process_param
    cases hk : ParameterBuilder.find_param_key p up <;>
      simp [hk, isMissingErr_reqMissingErr, isMissingErr_posValErr] <;>
      split_ifs <;>
      simp_all [isMissingErr_reqMissingErr, isMissingErr_posValErr]
  · unfold ParameterBuilder.validate_one
    cases hk : ParameterBuilder.find_param_key p up <;>
      simp [hk, isMissingErr_reqMissingErr, isMissingErr_flagValErr] <;>
      split_ifs <;>
      simp_all [isMissingErr_reqMissingErr, isMissingErr_flagValErr]
  · intro b ps
    rw [ParameterBuilder.build_command_decomp]
  · intro ps
    exact ParameterBuilder.validate_decomp ps up

/-- Every string starts with itself. -/
theorem pyStartsWith_self (s : String) : pyStartsWith s s = true := by
  simp [pyStartsWith, List.isPrefixOf_iff_prefix]

/-- A concatenation starts with its left part. -/
theorem pyStartsWith_append_left (a b : String) : pyStartsWith (a ++ b) a = true := by
  simp only [pyStartsWith, String.data_append, List.isPrefixOf_iff_prefix]
  exact List.prefix_append a.data b.data

/-- Counterexample to C3: the flag `-v` of a declared (boolean,
non-positional) parameter matches the user key `v`, yet with the supplied
value `False` the flag does not appear in the output command at all,
contradicting the claim that every non-positional parameter whose flag
matched a user key appears in the output. -/
theorem matched_flag_omitted_when_falsy :
    ParameterBuilder.find_param_key { flag := some "-v" } [("v", PyVal.bool false)] =
      some "v" ∧
    ParameterBuilder.build_command "tool" [{ flag := some "-v" }]
        [("v", PyVal.bool false)] = ("tool", []) ∧
    containsSub "tool" "-v" = false := by
  decide

/-- C3 (amended): the built command is the base command, followed by the
per-parameter flag contributions in declaration order, followed by all
positional argument values at the end; and every non-positional,
non-bundle parameter whose flag matched a user key with a truthy value
actually contributes, its first output token starting with the flag. -/
theorem build_command_order (b : String) (ps : List ParameterBuilder.Param)
    (up : ParameterBuilder.UserParams) :
    (ParameterBuilder.build_command b ps up =
      (pyJoin " " (b :: (ps.flatMap (ParameterBuilder.flagContrib up) ++
                          ps.flatMap (ParameterBuilder.posContrib up))),
       ps.flatMap (ParameterBuilder.errContrib up))) ∧
    (∀ p ∈ ps, p.is_positional = false → p.is_bundle = false →
      ParameterBuilder.flagTruthy p.flag = true →
      ∀ k, ParameterBuilder.find_param_key p up = some k →
        ((List.lookup k up).getD PyVal.none).truthy = true →
        ∃ first rest, ParameterBuilder.flagContrib up p = first :: rest ∧
          pyStartsWith first (p.flag.getD "") = true) := by
  constructor
  · exact ParameterBuilder.build_command_decomp b ps up
  · intro p _ hpos hbundle hflag k hk hv
    have hne : ((List.lookup k up).getD PyVal.none) ≠ PyVal.str "" := by
      intro hcontra
      rw [hcontra] at hv
      simp [PyVal.truthy] at hv
    unfold ParameterBuilder.flagContrib ParameterBuilder.process_param
    rw [hk]
    simp only [hpos, hbundle, hflag, Bool.false_eq_true, if_false, if_true]
    cases hrv : p.requires_value with
    | false =>
      rw [if_neg (by simp), if_pos (by simp [hv])]
      exact ⟨_, [], rfl, pyStartsWith_self _⟩
    | true =>
      simp only [if_true]
      rw [if_pos (by simp [hv, bne_iff_ne, hne])]
      split
      · exact ⟨_, [], rfl, pyStartsWith_append_left _ _⟩
      · exact ⟨_, [((List.lookup k up).getD PyVal.none).toStr], rfl, pyStartsWith_self _⟩

/-- Witness for C3: a value-taking flag parameter matched with a truthy
value at a concrete input. -/
theorem build_command_order_witness :
    (ParameterBuilder.build_command "nmap"
        [{ flag := some "-p", requires_value := true }] [("p", PyVal.str "80")] =
      (pyJoin " " ("nmap" ::
        ([{ flag := some "-p", requires_value := true }].flatMap
            (ParameterBuilder.flagContrib [("p", PyVal.str "80")]) ++
          [{ flag := some "-p", requires_value := true }].flatMap
            (ParameterBuilder.posContrib [("p", PyVal.str "80")]))),
       [{ flag := some "-p", requires_value := true }].flatMap
         (ParameterBuilder.errContrib [("p", PyVal.str "80")]))) ∧
    (∃ first rest,
      ParameterBuilder.flagContrib [("p", PyVal.str "80")]
          { flag := some "-p", requires_value := true } = first :: rest ∧
      pyStartsWith first (({ flag := some "-p", requires_value := true } :
          ParameterBuilder.Param).flag.getD "") = true) := by
  refine ⟨(build_command_order "nmap" _ _).1, ?_⟩
  exact (build_command_order "nmap"
      [{ flag := some "-p", requires_value := true }] [("p", PyVal.str "80")]).2
    { flag := some "-p", requires_value := true } (by decide) rfl rfl (by decide)
    "p" (by decide) (by decide)

namespace ParameterBuilder

/-- Removal of one key from the user-parameter dict (`del d[k]`). -/
def removeKey (k : String) (up : UserParams) : UserParams :=
  up.filter (fun kv => kv.1 != k)

/-- An option that is not `isSome` is `none`. -/
theorem isSome_false_eq_none {α : Type _} (o : Option α) (h : ¬o.isSome = true) :
    o = none := by
  cases o <;> simp_all

/-- Looking up a different key is unaffected by the removal. -/
theorem lookup_removeKey_ne (up : UserParams) (k c : String) (h : c ≠ k) :
    List.lookup c (removeKey k up) = List.lookup c up := by
  induction up with
  | nil => rfl
  | cons kv rest ih =>
    obtain ⟨a, v⟩ := kv
    unfold removeKey at ih ⊢
    by_cases hk : a = k
    · subst hk
      rw [List.filter_cons_of_neg (by simp)]
      have hc : (c == a) = false := by simp [h]
      simp [List.lookup, hc, ih]
    · rw [List.filter_cons_of_pos (by simp [hk])]
      by_cases hc : c = a
      · subst hc
        simp [List.lookup]
      · have hc' : (c == a) = false := by simp [hc]
        simp [List.lookup, hc', ih]

/-- The removed key is no longer found. -/
theorem lookup_removeKey_self (up : UserParams) (k : String) :
    List.lookup k (removeKey k up) = none := by
  induction up with
  | nil => rfl
  | cons kv rest ih =>
    obtain ⟨a, v⟩ := kv
    unfold removeKey at ih ⊢
    by_cases hk : a = k
    · rw [List.filter_cons_of_neg (by simp [hk])]
      exact ih
    · rw [List.filter_cons_of_pos (by simp [hk])]
      have hc : (k == a) = false := by simp [Ne.symm hk]
      simp [List.lookup, hc, ih]

/-- A key absent before the removal stays absent. -/
theorem lookup_removeKey_of_none (up : UserParams) (k c : String)
    (h : List.lookup c up = none) : List.lookup c (removeKey k up) = none := by
  by_cases hck : c = k
  · subst hck; exact lookup_removeKey_self up c
  · rw [lookup_removeKey_ne up k c hck]; exact h

/-- The keyword loop is unaffected by removing a key it did not return. -/
theorem find_keyword_key_removeKey (kws : List String) (up : UserParams) (k : String)
    (h : find_keyword_key kws up ≠ some k) :
    find_keyword_key kws (removeKey k up) = find_keyword_key kws up := by
  induction kws with
  | nil => rfl
  | cons kw rest ih =>
    unfold find_keyword_key at h ⊢
    by_cases h1 : (List.lookup (pyReplaceChar (pyLower kw) ' ' '_') up).isSome
    · have hne : pyReplaceChar (pyLower kw) ' ' '_' ≠ k := by
        intro hc
        apply h
        simp [h1]
        exact hc
      have h1r : (List.lookup (pyReplaceChar (pyLower kw) ' ' '_')
          (removeKey k up)).isSome = true := by
        rw [lookup_removeKey_ne up k _ hne]; exact h1
      simp [h1, h1r]
    · have h1' := isSome_false_eq_none _ h1
      have h1r := lookup_removeKey_of_none up k _ h1'
      by_cases h2 : (List.lookup kw up).isSome
      · have hne : kw ≠ k := by
          intro hc
          apply h
          simp [h1', h2]
          exact hc
        have h2r : (List.lookup kw (removeKey k up)).isSome = true := by
          rw [lookup_removeKey_ne up k _ hne]; exact h2
        simp [h1', h1r, h2, h2r]
      · have h2' := isSome_false_eq_none _ h2
        have h2r := lookup_removeKey_of_none up k _ h2'
        have hrest : find_keyword_key rest up ≠ some k := by
          intro hc
          apply h
          simp [h1', h2', hc]
        simp [h1', h1r, h2', h2r, ih hrest]

/-- `find?` over a candidate list is unaffected by removing a key it did
not return. -/
theorem find?_lookup_removeKey (cs : List String) (up : UserParams) (k : String)
    (h : cs.find? (fun c => (List.lookup c up).isSome) ≠ some k) :
    cs.find? (fun c => (List.lookup c (removeKey k up)).isSome) =
      cs.find? (fun c => (List.lookup c up).isSome) := by
  induction cs with
  | nil => rfl
  | cons c rest ih =>
    by_cases h1 : (List.lookup c up).isSome
    · have hne : c ≠ k := by
        intro hc
        apply h
        simp [List.find?, h1]
        exact hc
      have h1r : (List.lookup c (removeKey k up)).isSome = true := by
        rw [lookup_removeKey_ne up k c hne]; exact h1
      simp [List.find?, h1, h1r]
    · have h1' := isSome_false_eq_none _ h1
      have h1r := lookup_removeKey_of_none up k c h1'
      have hrest : rest.find? (fun x => (List.lookup x up).isSome) ≠ some k := by
        intro hc
        apply h
        simp [List.find?, h1', hc]
      simp [List.find?, h1', h1r, ih hrest]

/-- Strategies 2 and 3 are unaffected by removing a user key they did not
return. -/
theorem find_key_fallback_removeKey (p : Param) (up : UserParams) (k : String)
    (h : find_key_fallback p up ≠ some k) :
    find_key_fallback p (removeKey k up) = find_key_fallback p up := by
  unfold find_key_fallback at h ⊢
  cases hkk : find_keyword_key p.keywords up with
  | some kk =>
    have hne : find_keyword_key p.keywords up ≠ some k := by
      rw [hkk]
      intro hc
      apply h
      rw [hkk, hc]
    rw [find_keyword_key_removeKey p.keywords up k hne, hkk]
  | none =>
    rw [find_keyword_key_removeKey p.keywords up k (by rw [hkk]; simp), hkk]
    rw [hkk] at h
    by_cases hcond : (p.is_positional || !flagTruthy p.flag) = true
    · simp only [hcond] at h ⊢
      simp only [if_true] at h ⊢
      exact find?_lookup_removeKey _ up k (by simpa using h)
    · have hcond' : (p.is_positional || !flagTruthy p.flag) = false := by
        simpa using hcond
      simp [hcond']

/-- `_find_param_key` is unaffected by removing a user key it did not
return. -/
theorem find_param_key_removeKey (p : Param) (up : UserParams) (k : String)
    (h : find_param_key p up ≠ some k) :
    find_param_key p (removeKey k up) = find_param_key p up := by
  unfold find_param_key at h ⊢
  cases hf : p.flag with
  | none =>
    simp only [hf] at h ⊢
    exact find_key_fallback_removeKey p up k (by simpa using h)
  | some flag =>
    by_cases hfe : (flag != "") = true
    · simp only [hf, hfe, if_true] at h ⊢
      by_cases ha : (List.lookup (pyReplaceChar (pyLstripDash flag) '-' '_') up).isSome
      · have hne : pyReplaceChar (pyLstripDash flag) '-' '_' ≠ k := by
          intro hc
          apply h
          simp [ha]
          exact hc
        have har : (List.lookup (pyReplaceChar (pyLstripDash flag) '-' '_')
            (removeKey k up)).isSome = true := by
          rw [lookup_removeKey_ne up k _ hne]; exact ha
        simp [ha, har]
      · have ha' := isSome_false_eq_none _ ha
        have har := lookup_removeKey_of_none up k _ ha'
        by_cases hb : (List.lookup flag up).isSome
        · have hne : flag ≠ k := by
            intro hc
            apply h
            simp [ha', hb]
            exact hc
          have hbr : (List.lookup flag (removeKey k up)).isSome = true := by
            rw [lookup_removeKey_ne up k _ hne]; exact hb
          simp [ha', har, hb, hbr]
        · have hb' := isSome_false_eq_none _ hb
          have hbr := lookup_removeKey_of_none up k _ hb'
          by_cases hc2 : (List.lookup (pyReplaceChar flag '-' '_') up).isSome
          · have hne : pyReplaceChar flag '-' '_' ≠ k := by
              intro hc
              apply h
              simp [ha', hb', hc2]
              exact hc
            have hcr : (List.lookup (pyReplaceChar flag '-' '_')
                (removeKey k up)).isSome = true := by
              rw [lookup_removeKey_ne up k _ hne]; exact hc2
            simp [ha', har, hb', hbr, hc2, hcr]
          · have hc2' := isSome_false_eq_none _ hc2
            have hcr := lookup_removeKey_of_none up k _ hc2'
            have hfall : find_key_fallback p up ≠ some k := by
              intro hc
              apply h
              simp [ha', hb', hc2', hc]
            simp [ha', har, hb', hbr, hc2', hcr,
              find_key_fallback_removeKey p up k hfall]
    · have hfe' : (flag != "") = false := by simpa using hfe
      simp only [hf, hfe'] at h ⊢
      simp only [Bool.false_eq_true, if_false] at h ⊢
      exact find_key_fallback_removeKey p up k (by simpa using h)

/-- One loop step is unaffected by removing a user key the parameter did
not match. -/
theorem process_param_removeKey (up : UserParams) (k : String) (acc : BuildAcc)
    (p : Param) (h : find_param_key p up ≠ some k) :
    process_param (removeKey k up) acc p = process_param up acc p := by
  have hf := find_param_key_removeKey p up k h
  unfold process_param
  rw [hf]
  cases hk : find_param_key p up with
  | none => rfl
  | some kf =>
    have hne : kf ≠ k := by intro hc; rw [hc] at hk; exact h hk
    simp only [lookup_removeKey_ne up k kf hne]

end ParameterBuilder

/-- Counterexample-free C8: `build_command` tolerates non-matches in both
directions. (a) Removing from the declaration list a non-positional
parameter with no matching user key leaves command and errors unchanged
(its flag never appears and no error is added for it). (b) Removing from
the user dict a key that no declared parameter matched leaves command and
errors unchanged (the key contributes nothing and produces no error). -/
theorem build_command_tolerant :
    (∀ (b : String) (l1 l2 : List ParameterBuilder.Param) (p : ParameterBuilder.Param)
       (up : ParameterBuilder.UserParams),
      p.is_positional = false → ParameterBuilder.find_param_key p up = none →
      ParameterBuilder.build_command b (l1 ++ p :: l2) up =
        ParameterBuilder.build_command b (l1 ++ l2) up) ∧
    (∀ (b : String) (ps : List ParameterBuilder.Param)
       (up : ParameterBuilder.UserParams) (k : String),
      (∀ p ∈ ps, ParameterBuilder.find_param_key p up ≠ some k) →
      ParameterBuilder.build_command b ps (ParameterBuilder.removeKey k up) =
        ParameterBuilder.build_command b ps up) := by
  constructor
  · intro b l1 l2 p up hpos hfind
    have hzero : ParameterBuilder.process_param up
        { parts := [], positional := [], errors := [] } p =
        { parts := [], positional := [], errors := [] } := by
      unfold ParameterBuilder.process_param
      rw [hfind]
      simp [hpos]
    rw [ParameterBuilder.build_command_decomp, ParameterBuilder.build_command_decomp]
    simp only [List.flatMap_append, List.flatMap_cons,
      ParameterBuilder.flagContrib, ParameterBuilder.posContrib,
      ParameterBuilder.errContrib, hzero]
    simp
  · intro b ps up k h
    unfold ParameterBuilder.build_command
    suffices hs : ∀ acc, ps.foldl (ParameterBuilder.process_param
        (ParameterBuilder.removeKey k up)) acc =
        ps.foldl (ParameterBuilder.process_param up) acc by
      rw [hs]
    induction ps with
    | nil => intro acc; rfl
    | cons p rest ih =>
      intro acc
      simp only [List.foldl_cons]
      rw [ParameterBuilder.process_param_removeKey up k acc p (h p (by simp))]
      exact ih (fun q hq => h q (by simp [hq])) _

/-- Witness for C8 at concrete inputs: an unmatched `-x` parameter is
dropped without effect, and an unmatched user key `zzz` is removable
without effect. -/
theorem build_command_tolerant_witness :
    (ParameterBuilder.build_command "nmap" ([] ++ { flag := some "-x" } :: []) [] =
      ParameterBuilder.build_command "nmap" ([] ++ []) []) ∧
    (ParameterBuilder.build_command "scan" [{ flag := some "-t" }]
        (ParameterBuilder.removeKey "zzz" [("zzz", PyVal.str "v")]) =
      ParameterBuilder.build_command "scan" [{ flag := some "-t" }]
        [("zzz", PyVal.str "v")]) := by
  exact ⟨build_command_tolerant.1 "nmap" [] [] { flag := some "-x" } [] rfl (by decide),
         build_command_tolerant.2 "scan" [{ flag := some "-t" }]
           [("zzz", PyVal.str "v")] "zzz" (by decide)⟩
